import Mathlib

/-!
Verification of the Cloud-Incident-Response-Automation repository:
a shallow embedding of the three AWS Lambda handlers
(`AwsIncidentResponder.py`, `AwsConfirmApproval.py`, `AwsRestoreFunction.py`)
together with theorems checking the specification's claims about the
approval-token protocol and the quarantine/restore transition.

External collaborators (DynamoDB token store, SSM secret store, EC2
resource control, SNS, Lambda invoke) are modelled as explicit inputs:
the token store as a lookup function, HMAC-SHA256 as an abstract keyed
function, clock time as an integer parameter, and the two effectful
calls of the gate (the conditional `update_item` and the asynchronous
`invoke`) as outcome parameters.  Python integers are embedded as `Int`,
Python strings as `String`, and Python truthiness of a string `s` as
`s ≠ ""`.
-/

/-- Split a character list at every occurrence of `c`; `acc` holds the
(reversed) current piece.  Auxiliary for `pySplitComma`. -/
def splitCharAux (c : Char) : List Char → List Char → List (List Char)
  | [], acc => [acc.reverse]
  | x :: xs, acc =>
    if x = c then acc.reverse :: splitCharAux c xs []
    else splitCharAux c xs (x :: acc)

/-- Python `s.split(",")`: the pieces of `s` between commas; on the empty
string it yields `[""]`. -/
def pySplitComma (s : String) : List String :=
  (splitCharAux ',' s.data []).map String.mk

/-- Interleave a comma between character-list pieces; auxiliary for
`pyJoinComma`. -/
def joinCharPieces : List (List Char) → List Char
  | [] => []
  | [d] => d
  | d :: ds => d ++ ',' :: joinCharPieces ds

/-- Python `",".join(l)`. -/
def pyJoinComma (l : List String) : String :=
  String.mk (joinCharPieces (l.map String.data))

/-- Python `s.lower()` (over the character data). -/
def pyLower (s : String) : String :=
  String.mk (s.data.map Char.toLower)

/-- Python `s.strip()`: remove leading and trailing whitespace. -/
def pyStrip (s : String) : String :=
  String.mk (((s.data.dropWhile Char.isWhitespace).reverse.dropWhile
    Char.isWhitespace).reverse)

/-- Python `s.endswith(suffix)`. -/
def pyEndsWith (s suffix : String) : Bool :=
  suffix.data.isSuffixOf s.data

/-- Python `a or b` for an optional string `a` (missing key) and default `b`:
`None` and `""` are falsy. Embeds expressions like `qs.get("x") or ""`. -/
def pyOrOpt (a : Option String) (b : String) : String :=
  match a with
  | some s => if s = "" then b else s
  | none => b

/-- Python `a or b` for two strings (`""` is falsy). -/
def pyOrStr (a b : String) : String :=
  if a = "" then b else a

/-- First value bound to key `k` in a query-string map (embeds
`{k: v[0] ...}` built by `_get_qs` followed by `.get`). -/
def qsGet (qs : List (String × String)) (k : String) : Option String :=
  (qs.find? (fun p => p.1 = k)).map (fun p => p.2)

/-- The Approval Token Record persisted in the token table
(`AwsIncidentResponder.py` lines 49-57). -/
structure TokenRecord where
  token : String
  instanceId : String
  findingId : String
  findingTitle : String
  created_at : Int
  expires_at : Int
  used : Bool
deriving DecidableEq

namespace AwsIncidentResponder

/-- `_sign(secret, instance_id, finding_id, token)` of
`AwsIncidentResponder.py` lines 35-37: HMAC-SHA256 (abstracted as
`hmacF : secret → message → hexdigest`) over the message
`f"{instance_id}|{finding_id}|{token}"`. -/
def _sign (hmacF : String → String → String)
    (secret instance_id finding_id token : String) : String :=
  hmacF secret (instance_id ++ "|" ++ finding_id ++ "|" ++ token)

/-- The record built and `put_item`-persisted by `_create_token_and_link`
(`AwsIncidentResponder.py` lines 39-57).  `expire_minutes_env` is
`int(os.environ.get("EXPIRE_MINUTES", "60"))`; the code clamps it with
`max(0, ...)` before computing `expires_at = now + expire_minutes * 60`. -/
def _create_token_record (token : String) (now : Int) (expire_minutes_env : Int)
    (instance_id finding_id finding_title : String) : TokenRecord :=
  let expire_minutes : Int := max 0 expire_minutes_env
  let exp : Int := now + expire_minutes * 60
  { token := token
    instanceId := instance_id
    findingId := finding_id
    findingTitle := pyOrStr finding_title ""
    created_at := now
    expires_at := exp
    used := false }

end AwsIncidentResponder

namespace AwsConfirmApproval

/-- `_sig(secret, instance_id, finding_id, token)` of
`AwsConfirmApproval.py` lines 63-65. -/
def _sig (hmacF : String → String → String)
    (secret instance_id finding_id token : String) : String :=
  hmacF secret (instance_id ++ "|" ++ finding_id ++ "|" ++ token)

/-- The module-level environment configuration of `AwsConfirmApproval.py`
(lines 5-7), each value already `.strip()`-ed; a missing variable is the
empty string. -/
structure GateConfig where
  RESTORE_FN : String
  TOKENS_TABLE : String
  APPROVAL_SECRET_PARAM : String

/-- The request parameters extracted from the query string
(`AwsConfirmApproval.py` lines 76-81). -/
structure Params where
  instance_id : String
  finding_id : String
  finding_title : String
  token : String
  sig : String
  confirm : String
deriving DecidableEq

/-- Parameter extraction of `AwsConfirmApproval.py` lines 76-81:
each `or`-fallback chain followed by `.strip()` (and `.lower()` for
`confirm`, which is not stripped). -/
def extractParams (qs : List (String × String)) : Params :=
  { instance_id := pyStrip (pyOrOpt (qsGet qs "instanceId") (pyOrOpt (qsGet qs "InstanceId") ""))
    finding_id := pyStrip (pyOrOpt (qsGet qs "findingId") "")
    finding_title := pyStrip (pyOrOpt (qsGet qs "findingTitle") "")
    token := pyStrip (pyOrOpt (qsGet qs "token") "")
    sig := pyStrip (pyOrOpt (qsGet qs "sig") "")
    confirm := pyLower (pyOrOpt (qsGet qs "confirm") "") }

/-- Outcome of the conditional `table.update_item` call
(`AwsConfirmApproval.py` lines 142-150): the update succeeded, or it
raised `ConditionalCheckFailedException` (a concurrent consumer already
set `used`), or it raised any other exception (a token-store failure). -/
inductive ConsumeOutcome where
  | success
  | conditionFailed
  | storeError
deriving DecidableEq

/-- The payload dispatched to the restore function
(`AwsConfirmApproval.py` lines 153-158). -/
structure RestorePayloadMsg where
  instanceId : String
  InstanceIds : List String
  findingId : String
  source : String
deriving DecidableEq

/-- The rendered response of the gate, one constructor per distinct page
returned by `lambda_handler` of `AwsConfirmApproval.py`.
`confirmationPage` carries the five query parameters re-emitted into the
approve link (lines 98-105); `restoreRequested` carries the dispatched
payload. -/
inductive GateResult where
  | favicon204
  | missingParams
  | restoreFnNotSet
  | confirmationPage (instance_id finding_id finding_title token sig : String)
  | tokensConfigNotSet
  | missingTokenOrSig
  | tokenNotFound
  | alreadyUsed
  | expired
  | mismatch
  | badSignature
  | restoreRequested (payload : RestorePayloadMsg)
  | invokeFailed
deriving DecidableEq

/-- The validation flow of the `CONFIRMED` state
(`AwsConfirmApproval.py` lines 117-173, the section headed
`# Confirmed -> validate token BEFORE restore`).  `store` embeds
`table.get_item`, `now` is `int(time.time())`, `secret` is the value
fetched by `_get_secret()`, `consume` the outcome of the conditional
`update_item`, and `invokeOk` whether `lambda_client.invoke` succeeds. -/
def validateAndConsume (cfg : GateConfig) (p : Params)
    (store : String → Option TokenRecord) (now : Int) (secret : String)
    (hmacF : String → String → String)
    (consume : ConsumeOutcome) (invokeOk : Bool) : GateResult :=
  if cfg.TOKENS_TABLE = "" ∨ cfg.APPROVAL_SECRET_PARAM = "" then .tokensConfigNotSet
  else if p.token = "" ∨ p.sig = "" then .missingTokenOrSig
  else
    match store p.token with
    | none => .tokenNotFound
    | some item =>
      if item.used then .alreadyUsed
      else if item.expires_at ≤ now then .expired
      else if item.instanceId ≠ p.instance_id ∨ item.findingId ≠ p.finding_id then .mismatch
      else if p.sig ≠ _sig hmacF secret p.instance_id p.finding_id p.token then .badSignature
      else
        match consume with
        | .success =>
          if invokeOk then
            .restoreRequested
              { instanceId := p.instance_id
                InstanceIds := [p.instance_id]
                findingId := p.finding_id
                source := "email-approval-SIGNED" }
          else .invokeFailed
        | _ => .alreadyUsed

/-- The body of `lambda_handler` (`AwsConfirmApproval.py` lines 83-173)
after parameter extraction: the missing-parameter and
`RESTORE_FUNCTION_NAME` checks, then either the confirmation page
(`AWAITING_CONFIRMATION`) or the `CONFIRMED` validation flow, selected
by `confirm not in ("1", "yes", "true")` on the lowered parameter. -/
def handleConfirm (cfg : GateConfig) (p : Params)
    (store : String → Option TokenRecord) (now : Int) (secret : String)
    (hmacF : String → String → String)
    (consume : ConsumeOutcome) (invokeOk : Bool) : GateResult :=
  if p.instance_id = "" ∨ p.finding_id = "" then .missingParams
  else if cfg.RESTORE_FN = "" then .restoreFnNotSet
  else if ¬ (p.confirm = "1" ∨ p.confirm = "yes" ∨ p.confirm = "true") then
    .confirmationPage p.instance_id p.finding_id p.finding_title p.token p.sig
  else validateAndConsume cfg p store now secret hmacF consume invokeOk

/-- `lambda_handler` of `AwsConfirmApproval.py` (lines 67-173): the
favicon short-circuit followed by extraction and the confirm flow. -/
def lambda_handler (cfg : GateConfig) (rawPath : String)
    (qs : List (String × String)) (store : String → Option TokenRecord)
    (now : Int) (secret : String) (hmacF : String → String → String)
    (consume : ConsumeOutcome) (invokeOk : Bool) : GateResult :=
  if pyEndsWith rawPath "/favicon.ico" then .favicon204
  else handleConfirm cfg (extractParams qs) store now secret hmacF consume invokeOk

end AwsConfirmApproval

/-! ## EC2 world model

The resource-control collaborator: instances carry network interfaces
(each with a security-group membership) and tags.  `create_tags` upserts
keys, `delete_tags` removes them, `modify_network_interface_attribute`
replaces one interface's group set, `describe_instances` looks an
instance up (failing for an unknown identifier, the modelled
collaborator error). -/

/-- A network interface: identifier and current security-group set. -/
structure Eni where
  id : String
  groups : List String
deriving DecidableEq

/-- An EC2 instance: identifier, network interfaces, tags. -/
structure Ec2Instance where
  id : String
  enis : List Eni
  tags : List (String × String)
deriving DecidableEq

/-- The resource-control state: the fleet of instances. -/
abbrev Ec2State := List Ec2Instance

/-- First value of tag key `k` (embeds the generator-expression scan over
`ins.get("Tags", [])` in `AwsRestoreFunction.py` lines 73-76). -/
def getTag (tags : List (String × String)) (k : String) : Option String :=
  (tags.find? (fun t => t.1 = k)).map (fun t => t.2)

/-- Upsert of one tag key (AWS `create_tags` semantics). -/
def setTag (tags : List (String × String)) (k v : String) : List (String × String) :=
  (k, v) :: tags.filter (fun t => ¬ t.1 = k)

/-- Removal of one tag key (AWS `delete_tags` semantics). -/
def delTag (tags : List (String × String)) (k : String) : List (String × String) :=
  tags.filter (fun t => ¬ t.1 = k)

/-- Replace the group set of the interface named `eniId` on one instance. -/
def setEniGroupsI (i : Ec2Instance) (eniId : String) (gs : List String) : Ec2Instance :=
  { i with enis := i.enis.map (fun e => if e.id = eniId then { e with groups := gs } else e) }

/-- Upsert a list of tags on one instance. -/
def createTagsI (i : Ec2Instance) (ts : List (String × String)) : Ec2Instance :=
  { i with tags := ts.foldl (fun a t => setTag a t.1 t.2) i.tags }

/-- Delete one tag key on one instance. -/
def deleteTagI (i : Ec2Instance) (k : String) : Ec2Instance :=
  { i with tags := delTag i.tags k }

/-- `ec2.describe_instances(InstanceIds=[iid])`, reduced to the single
instance the handlers read out of `Reservations[0].Instances[0]`. -/
def describeInstance (st : Ec2State) (iid : String) : Option Ec2Instance :=
  st.find? (fun i => i.id = iid)

/-- Apply `f` to the instance named `iid` (other instances untouched). -/
def onInstance (st : Ec2State) (iid : String) (f : Ec2Instance → Ec2Instance) : Ec2State :=
  st.map (fun i => if i.id = iid then f i else i)

/-- `ec2.modify_network_interface_attribute(NetworkInterfaceId=eniId, Groups=gs)`:
ENI identifiers are globally unique, so setting the groups of every
interface bearing `eniId` across the fleet models the per-ENI call. -/
def modify_network_interface_attribute (st : Ec2State) (eniId : String)
    (gs : List String) : Ec2State :=
  st.map (fun i => setEniGroupsI i eniId gs)

/-- `ec2.create_tags(Resources=[iid], Tags=ts)`. -/
def create_tags (st : Ec2State) (iid : String) (ts : List (String × String)) : Ec2State :=
  onInstance st iid (fun i => createTagsI i ts)

/-- `ec2.delete_tags(Resources=[iid], Tags=[{"Key": k}])`. -/
def delete_tags (st : Ec2State) (iid : String) (k : String) : Ec2State :=
  onInstance st iid (fun i => deleteTagI i k)

namespace AwsIncidentResponder

/-- The per-ENI quarantine loop of `lambda_handler`
(`AwsIncidentResponder.py` lines 106-124): for each interface of the
describe snapshot, tag the instance with `OriginalSGs` (the comma-join of
that interface's pre-quarantine groups) and the quarantined status value,
then replace the interface's groups with the single blocking group. -/
def quarantineLoop (blocking tagKey qVal iid : String) :
    Ec2State → List Eni → Ec2State
  | st, [] => st
  | st, eni :: rest =>
    let st1 := create_tags st iid
      [("OriginalSGs", pyJoinComma eni.groups), (tagKey, qVal)]
    let st2 := modify_network_interface_attribute st1 eni.id [blocking]
    quarantineLoop blocking tagKey qVal iid st2 rest

/-- Steps 4-5 of `lambda_handler` (`AwsIncidentResponder.py` lines
97-124): describe once (a `ClientError` is re-raised, modelled for an
unknown instance), then quarantine each interface of the snapshot. -/
def quarantine (blocking tagKey qVal : String) (st : Ec2State) (iid : String) :
    Except String Ec2State :=
  match describeInstance st iid with
  | none => .error iid
  | some ins => .ok (quarantineLoop blocking tagKey qVal iid st ins.enis)

end AwsIncidentResponder

namespace AwsRestoreFunction

/-- The inbound payload of `AwsRestoreFunction.py` `lambda_handler`
(fields read at lines 56-64 and 107-108). -/
structure RestoreEvent where
  InstanceIds : Option (List String)
  InstanceId : Option String
  instanceId : Option String
  source : Option String
  findingId : Option String

/-- The exceptions the handler can raise: the explicit `ValueError` for a
payload with no instance identifiers, and the uncaught collaborator error
from `ec2.describe_instances` (modelled: unknown instance identifier). -/
inductive RestoreError where
  | noInstanceIds
  | describeFailed (iid : String)
deriving DecidableEq

/-- Python truthiness of `event.get("InstanceIds")`: present and non-empty. -/
def pyTruthyOptList (o : Option (List String)) : Bool :=
  match o with
  | some l => decide (l ≠ [])
  | none => false

/-- Python truthiness of an optional string: present and non-empty. -/
def pyTruthyOptStr (o : Option String) : Bool :=
  match o with
  | some s => decide (s ≠ "")
  | none => false

/-- The payload dispatch of `AwsRestoreFunction.py` lines 56-64. -/
def eventInstanceIds (ev : RestoreEvent) : Except RestoreError (List String) :=
  if pyTruthyOptList ev.InstanceIds then .ok (ev.InstanceIds.getD [])
  else if pyTruthyOptStr ev.InstanceId then .ok [ev.InstanceId.getD ""]
  else if pyTruthyOptStr ev.instanceId then .ok [ev.instanceId.getD ""]
  else .error .noInstanceIds

/-- The per-instance loop of `AwsRestoreFunction.py` lines 68-100,
threading the EC2 state and the `restored` / `skipped` accumulators.
A missing or empty (Python-falsy) `OriginalSGs` tag skips the instance
and continues; a raised collaborator error is uncaught and aborts the
whole batch. -/
def restoreLoop (tagKey restoredValue : String) :
    Ec2State → List String → List String → List String →
    Except RestoreError (Ec2State × List String × List String)
  | st, restored, skipped, [] => .ok (st, restored, skipped)
  | st, restored, skipped, iid :: rest =>
    match describeInstance st iid with
    | none => .error (.describeFailed iid)
    | some ins =>
      match getTag ins.tags "OriginalSGs" with
      | none => restoreLoop tagKey restoredValue st restored (skipped ++ [iid]) rest
      | some tagVal =>
        if tagVal = "" then
          restoreLoop tagKey restoredValue st restored (skipped ++ [iid]) rest
        else
          let original_sg_ids := pySplitComma tagVal
          let st1 := ins.enis.foldl
            (fun s eni => modify_network_interface_attribute s eni.id original_sg_ids) st
          let st2 := delete_tags st1 iid "OriginalSGs"
          let st3 := create_tags st2 iid [(tagKey, restoredValue)]
          restoreLoop tagKey restoredValue st3 (restored ++ [iid]) skipped rest

/-- The summary dictionary returned at `AwsRestoreFunction.py` lines 103-108. -/
structure RestoreSummary where
  restored : List String
  skipped_no_original_sgs : List String
  source : Option String
  findingId : Option String
deriving DecidableEq

/-- `lambda_handler` of `AwsRestoreFunction.py` (lines 46-108): dispatch
the payload shape, process each instance, return the summary. -/
def lambda_handler (tagKey restoredValue : String) (st : Ec2State)
    (ev : RestoreEvent) : Except RestoreError (Ec2State × RestoreSummary) :=
  match eventInstanceIds ev with
  | .error e => .error e
  | .ok instance_ids =>
    match restoreLoop tagKey restoredValue st [] [] instance_ids with
    | .error e => .error e
    | .ok (stF, restored, skipped) =>
      .ok (stF,
        { restored := restored
          skipped_no_original_sgs := skipped
          source := ev.source
          findingId := ev.findingId })

end AwsRestoreFunction

/-- The effect of the quarantine loop on the quarantined instance itself
(proof support): per interface of the snapshot, upsert the `OriginalSGs`
and status tags, then isolate that interface. -/
def quarantineLoopI (blocking tagKey qVal : String) : Ec2Instance → List Eni → Ec2Instance
  | i, [] => i
  | i, eni :: rest =>
    quarantineLoopI blocking tagKey qVal
      (setEniGroupsI (createTagsI i
        [("OriginalSGs", pyJoinComma eni.groups), (tagKey, qVal)]) eni.id [blocking])
      rest

/-- The last interface's group list (proof support): each quarantine-loop
iteration overwrites the instance-level `OriginalSGs` tag, so the
recorded snapshot is the last interface's pre-quarantine set. -/
def lastEniGroups : List Eni → List String
  | [] => []
  | [e] => e.groups
  | _ :: rest => lastEniGroups rest

/-- The security-group set the Quarantine Orchestrator durably captures
for an instance: the snapshot its loop leaves in the `OriginalSGs` tag
(the spec's documented "last-seen" approximation for multi-interface
instances; for a single-interface instance, exactly its pre-quarantine
set). -/
def capturedSGs (ins : Ec2Instance) : List String :=
  lastEniGroups ins.enis

/-! ## Claims about the Token Issuer and the Approval Gate -/

/-- C7: for every configured TTL value (including negative ones), the
record persisted by `_create_token_and_link` satisfies
`expires_at = created_at + max(0, ttl) * 60` and `used = false`; in
particular `created_at ≤ expires_at` always holds, and a negative
configured TTL yields `expires_at = created_at` (an immediately-expired
token). -/
theorem C7_ttl_clamped_nonnegative (token : String) (now ttl : Int)
    (instance_id finding_id finding_title : String) :
    (AwsIncidentResponder._create_token_record token now ttl
        instance_id finding_id finding_title).expires_at
      = (AwsIncidentResponder._create_token_record token now ttl
          instance_id finding_id finding_title).created_at + max 0 ttl * 60
    ∧ (AwsIncidentResponder._create_token_record token now ttl
        instance_id finding_id finding_title).used = false
    ∧ (AwsIncidentResponder._create_token_record token now ttl
        instance_id finding_id finding_title).created_at
      ≤ (AwsIncidentResponder._create_token_record token now ttl
          instance_id finding_id finding_title).expires_at
    ∧ (ttl < 0 →
        (AwsIncidentResponder._create_token_record token now ttl
            instance_id finding_id finding_title).expires_at
          = (AwsIncidentResponder._create_token_record token now ttl
              instance_id finding_id finding_title).created_at) := by
  refine ⟨rfl, rfl, ?_, ?_⟩
  · have h0 : (0 : Int) ≤ max 0 ttl := le_max_left 0 ttl
    have h1 : (0 : Int) ≤ max 0 ttl * 60 := mul_nonneg h0 (by norm_num)
    simp only [AwsIncidentResponder._create_token_record]
    linarith
  · intro h
    simp only [AwsIncidentResponder._create_token_record]
    rw [max_eq_left h.le]
    ring

/-- Witness for C7 at the negative configured TTL `-5`. -/
theorem C7_ttl_clamped_nonnegative_witness :
    (-5 : Int) < 0 ∧
    (AwsIncidentResponder._create_token_record "tok" 1000 (-5)
        "i-1" "f-1" "T").expires_at
      = (AwsIncidentResponder._create_token_record "tok" 1000 (-5)
          "i-1" "f-1" "T").created_at :=
  ⟨by decide,
   (C7_ttl_clamped_nonnegative "tok" 1000 (-5) "i-1" "f-1" "T").2.2.2 (by decide)⟩

/-- C8: the Token Issuer's `_sign` and the Approval Gate's `_sig` compute
the identical signature — the abstract HMAC-SHA256 keyed by the shared
secret over `instanceId || "|" || findingId || "|" || token` — so a link
whose parameters are submitted unaltered (same secret, matching
still-valid record) passes the recomputed-signature check and the
`CONFIRMED` flow authorizes: with a successful consume and dispatch it
renders the success page. -/
theorem C8_sign_and_verify_agree (hmacF : String → String → String)
    (secret instance_id finding_id token finding_title : String)
    (cfg : AwsConfirmApproval.GateConfig) (store : String → Option TokenRecord)
    (now : Int) (item : TokenRecord)
    (hT : cfg.TOKENS_TABLE ≠ "") (hS : cfg.APPROVAL_SECRET_PARAM ≠ "")
    (htok : token ≠ "")
    (hsigne : AwsIncidentResponder._sign hmacF secret instance_id finding_id token ≠ "")
    (hstore : store token = some item)
    (hiid : item.instanceId = instance_id) (hfid : item.findingId = finding_id)
    (hused : item.used = false) (hexp : now < item.expires_at) :
    AwsIncidentResponder._sign hmacF secret instance_id finding_id token
      = AwsConfirmApproval._sig hmacF secret instance_id finding_id token
    ∧ AwsConfirmApproval.validateAndConsume cfg
        { instance_id := instance_id, finding_id := finding_id,
          finding_title := finding_title, token := token,
          sig := AwsIncidentResponder._sign hmacF secret instance_id finding_id token,
          confirm := "1" }
        store now secret hmacF .success true
      = .restoreRequested
          { instanceId := instance_id, InstanceIds := [instance_id],
            findingId := finding_id, source := "email-approval-SIGNED" } := by
  refine ⟨rfl, ?_⟩
  have hnotle : ¬ item.expires_at ≤ now := not_le.mpr hexp
  simp only [AwsConfirmApproval.validateAndConsume, AwsConfirmApproval._sig,
    AwsIncidentResponder._sign] at *
  simp [hT, hS, htok, hsigne, hstore, hiid, hfid, hused, hnotle]

/-- Witness for C8: a concrete secret, record and link. -/
theorem C8_sign_and_verify_agree_witness :
    AwsConfirmApproval.validateAndConsume ⟨"fn", "tbl", "prm"⟩
      { instance_id := "i-1", finding_id := "f-1", finding_title := "",
        token := "tok",
        sig := AwsIncidentResponder._sign (fun s m => s ++ "#" ++ m)
          "sec" "i-1" "f-1" "tok",
        confirm := "1" }
      (fun t => if t = "tok" then
        some ⟨"tok", "i-1", "f-1", "", 0, 100, false⟩ else none)
      10 "sec" (fun s m => s ++ "#" ++ m) .success true
      = .restoreRequested
          { instanceId := "i-1", InstanceIds := ["i-1"],
            findingId := "f-1", source := "email-approval-SIGNED" } :=
  (C8_sign_and_verify_agree (fun s m => s ++ "#" ++ m) "sec" "i-1" "f-1" "tok" ""
    ⟨"fn", "tbl", "prm"⟩
    (fun t => if t = "tok" then
      some ⟨"tok", "i-1", "f-1", "", 0, 100, false⟩ else none)
    10 ⟨"tok", "i-1", "f-1", "", 0, 100, false⟩
    (by decide) (by decide) (by decide) (by decide) (by decide)
    rfl rfl rfl (by decide)).2

/-- C10 (implicit): at the atomic-consume step, every exception raised by
the conditional token-store update — condition failure because a
concurrent consumer already set `used`, or any other store failure — is
caught by the same `except Exception` and yields the same
"already used" (`REJECTED_REPLAYED`) page; a token-store failure there is
indistinguishable from a replay in the rendered outcome. -/
theorem C10_consume_failures_conflated (cfg : AwsConfirmApproval.GateConfig)
    (p : AwsConfirmApproval.Params) (store : String → Option TokenRecord)
    (now : Int) (secret : String) (hmacF : String → String → String)
    (invokeOk : Bool) (item : TokenRecord)
    (hT : cfg.TOKENS_TABLE ≠ "") (hS : cfg.APPROVAL_SECRET_PARAM ≠ "")
    (htok : p.token ≠ "") (hsigne : p.sig ≠ "")
    (hstore : store p.token = some item)
    (hused : item.used = false) (hexp : now < item.expires_at)
    (hiid : item.instanceId = p.instance_id) (hfid : item.findingId = p.finding_id)
    (hsig : p.sig = AwsConfirmApproval._sig hmacF secret
        p.instance_id p.finding_id p.token) :
    AwsConfirmApproval.validateAndConsume cfg p store now secret hmacF
        .conditionFailed invokeOk = .alreadyUsed
    ∧ AwsConfirmApproval.validateAndConsume cfg p store now secret hmacF
        .storeError invokeOk = .alreadyUsed
    ∧ AwsConfirmApproval.validateAndConsume cfg p store now secret hmacF
        .conditionFailed invokeOk
      = AwsConfirmApproval.validateAndConsume cfg p store now secret hmacF
          .storeError invokeOk := by
  have hnotle : ¬ item.expires_at ≤ now := not_le.mpr hexp
  have hsg : ¬ p.sig ≠ AwsConfirmApproval._sig hmacF secret
      p.instance_id p.finding_id p.token := by simp [hsig]
  refine ⟨?_, ?_, ?_⟩ <;>
    simp [AwsConfirmApproval.validateAndConsume, hT, hS, htok, hsigne, hstore,
      hused, hnotle, hiid, hfid, hsg]

/-- Witness for C10: a concrete valid request hitting a failing consume. -/
theorem C10_consume_failures_conflated_witness :
    AwsConfirmApproval.validateAndConsume ⟨"fn", "tbl", "prm"⟩
      { instance_id := "i-1", finding_id := "f-1", finding_title := "",
        token := "tok", sig := "sec#i-1|f-1|tok", confirm := "1" }
      (fun t => if t = "tok" then
        some ⟨"tok", "i-1", "f-1", "", 0, 100, false⟩ else none)
      10 "sec" (fun s m => s ++ "#" ++ m) .storeError true = .alreadyUsed :=
  (C10_consume_failures_conflated ⟨"fn", "tbl", "prm"⟩
    { instance_id := "i-1", finding_id := "f-1", finding_title := "",
      token := "tok", sig := "sec#i-1|f-1|tok", confirm := "1" }
    (fun t => if t = "tok" then
      some ⟨"tok", "i-1", "f-1", "", 0, 100, false⟩ else none)
    10 "sec" (fun s m => s ++ "#" ++ m) true
    ⟨"tok", "i-1", "f-1", "", 0, 100, false⟩
    (by decide) (by decide) (by decide) (by decide) rfl rfl (by decide)
    rfl rfl (by decide)).2.1

/-- In the `CONFIRMED` state — parameters present, restore function
configured, confirmation flag one of `1`/`yes`/`true` — the handler runs
the validation flow (`AwsConfirmApproval.py` line 97 falls through to
line 117). -/
theorem handleConfirm_eq_validate_of_confirmed (cfg : AwsConfirmApproval.GateConfig)
    (p : AwsConfirmApproval.Params) (store : String → Option TokenRecord)
    (now : Int) (secret : String) (hmacF : String → String → String)
    (consume : AwsConfirmApproval.ConsumeOutcome) (invokeOk : Bool)
    (hpi : p.instance_id ≠ "") (hpf : p.finding_id ≠ "")
    (hfn : cfg.RESTORE_FN ≠ "")
    (hc : p.confirm = "1" ∨ p.confirm = "yes" ∨ p.confirm = "true") :
    AwsConfirmApproval.handleConfirm cfg p store now secret hmacF consume invokeOk
      = AwsConfirmApproval.validateAndConsume cfg p store now secret hmacF
          consume invokeOk := by
  rcases hc with h | h | h <;>
    simp [AwsConfirmApproval.handleConfirm, hpi, hpf, hfn, h]

/-- C1: for every request in the `CONFIRMED` flow of the Approval Gate
(parameters present, `RESTORE_FUNCTION_NAME` configured, confirmation
flag set), the validation checks are evaluated strictly in the spec's
order, and the first failing check determines the rejection page:
(1) table/secret configuration present, (2) token and signature
parameters non-empty, (3) record exists for the token, (4) record not
already used, (5) not expired, (6) bound instanceId/findingId match,
(7) recomputed signature matches, (8) atomic consume; when all eight
pass, restoration is dispatched. -/
theorem C1_confirmed_checks_run_in_order (cfg : AwsConfirmApproval.GateConfig)
    (p : AwsConfirmApproval.Params) (store : String → Option TokenRecord)
    (now : Int) (secret : String) (hmacF : String → String → String)
    (consume : AwsConfirmApproval.ConsumeOutcome) (invokeOk : Bool)
    (hpi : p.instance_id ≠ "") (hpf : p.finding_id ≠ "")
    (hfn : cfg.RESTORE_FN ≠ "")
    (hc : p.confirm = "1" ∨ p.confirm = "yes" ∨ p.confirm = "true") :
    ((cfg.TOKENS_TABLE = "" ∨ cfg.APPROVAL_SECRET_PARAM = "") →
      AwsConfirmApproval.handleConfirm cfg p store now secret hmacF consume invokeOk
        = .tokensConfigNotSet)
    ∧ (cfg.TOKENS_TABLE ≠ "" → cfg.APPROVAL_SECRET_PARAM ≠ "" →
        (p.token = "" ∨ p.sig = "") →
        AwsConfirmApproval.handleConfirm cfg p store now secret hmacF consume invokeOk
          = .missingTokenOrSig)
    ∧ (cfg.TOKENS_TABLE ≠ "" → cfg.APPROVAL_SECRET_PARAM ≠ "" →
        p.token ≠ "" → p.sig ≠ "" → store p.token = none →
        AwsConfirmApproval.handleConfirm cfg p store now secret hmacF consume invokeOk
          = .tokenNotFound)
    ∧ (∀ item : TokenRecord, cfg.TOKENS_TABLE ≠ "" → cfg.APPROVAL_SECRET_PARAM ≠ "" →
        p.token ≠ "" → p.sig ≠ "" → store p.token = some item → item.used = true →
        AwsConfirmApproval.handleConfirm cfg p store now secret hmacF consume invokeOk
          = .alreadyUsed)
    ∧ (∀ item : TokenRecord, cfg.TOKENS_TABLE ≠ "" → cfg.APPROVAL_SECRET_PARAM ≠ "" →
        p.token ≠ "" → p.sig ≠ "" → store p.token = some item → item.used = false →
        item.expires_at ≤ now →
        AwsConfirmApproval.handleConfirm cfg p store now secret hmacF consume invokeOk
          = .expired)
    ∧ (∀ item : TokenRecord, cfg.TOKENS_TABLE ≠ "" → cfg.APPROVAL_SECRET_PARAM ≠ "" →
        p.token ≠ "" → p.sig ≠ "" → store p.token = some item → item.used = false →
        now < item.expires_at →
        (item.instanceId ≠ p.instance_id ∨ item.findingId ≠ p.finding_id) →
        AwsConfirmApproval.handleConfirm cfg p store now secret hmacF consume invokeOk
          = .mismatch)
    ∧ (∀ item : TokenRecord, cfg.TOKENS_TABLE ≠ "" → cfg.APPROVAL_SECRET_PARAM ≠ "" →
        p.token ≠ "" → p.sig ≠ "" → store p.token = some item → item.used = false →
        now < item.expires_at →
        item.instanceId = p.instance_id → item.findingId = p.finding_id →
        p.sig ≠ AwsConfirmApproval._sig hmacF secret p.instance_id p.finding_id p.token →
        AwsConfirmApproval.handleConfirm cfg p store now secret hmacF consume invokeOk
          = .badSignature)
    ∧ (∀ item : TokenRecord, cfg.TOKENS_TABLE ≠ "" → cfg.APPROVAL_SECRET_PARAM ≠ "" →
        p.token ≠ "" → p.sig ≠ "" → store p.token = some item → item.used = false →
        now < item.expires_at →
        item.instanceId = p.instance_id → item.findingId = p.finding_id →
        p.sig = AwsConfirmApproval._sig hmacF secret p.instance_id p.finding_id p.token →
        consume ≠ .success →
        AwsConfirmApproval.handleConfirm cfg p store now secret hmacF consume invokeOk
          = .alreadyUsed)
    ∧ (∀ item : TokenRecord, cfg.TOKENS_TABLE ≠ "" → cfg.APPROVAL_SECRET_PARAM ≠ "" →
        p.token ≠ "" → p.sig ≠ "" → store p.token = some item → item.used = false →
        now < item.expires_at →
        item.instanceId = p.instance_id → item.findingId = p.finding_id →
        p.sig = AwsConfirmApproval._sig hmacF secret p.instance_id p.finding_id p.token →
        consume = .success →
        AwsConfirmApproval.handleConfirm cfg p store now secret hmacF consume invokeOk
          = (if invokeOk then
              .restoreRequested
                { instanceId := p.instance_id, InstanceIds := [p.instance_id],
                  findingId := p.finding_id, source := "email-approval-SIGNED" }
            else .invokeFailed)) := by
  have hv := handleConfirm_eq_validate_of_confirmed cfg p store now secret hmacF
    consume invokeOk hpi hpf hfn hc
  refine ⟨?_, ?_, ?_, ?_, ?_, ?_, ?_, ?_, ?_⟩
  · intro h
    rw [hv]; simp only [AwsConfirmApproval.validateAndConsume]; rw [if_pos h]
  · intro hT hS h
    rw [hv]; simp [AwsConfirmApproval.validateAndConsume, hT, hS, h]
  · intro hT hS htok hsg h
    rw [hv]; simp [AwsConfirmApproval.validateAndConsume, hT, hS, htok, hsg, h]
  · intro item hT hS htok hsg hsome hu
    rw [hv]; simp [AwsConfirmApproval.validateAndConsume, hT, hS, htok, hsg, hsome, hu]
  · intro item hT hS htok hsg hsome hu hle
    rw [hv]; simp [AwsConfirmApproval.validateAndConsume, hT, hS, htok, hsg, hsome, hu, hle]
  · intro item hT hS htok hsg hsome hu hlt hm
    rw [hv]
    simp [AwsConfirmApproval.validateAndConsume, hT, hS, htok, hsg, hsome, hu,
      not_le.mpr hlt, hm]
  · intro item hT hS htok hsg hsome hu hlt h1 h2 hbad
    rw [hv]
    simp [AwsConfirmApproval.validateAndConsume, hT, hS, htok, hsg, hsome, hu,
      not_le.mpr hlt, h1, h2, hbad]
  · intro item hT hS htok hsg hsome hu hlt h1 h2 hsig hcons
    have hsgn : ¬ p.sig ≠ AwsConfirmApproval._sig hmacF secret
        p.instance_id p.finding_id p.token := by simp [hsig]
    rw [hv]
    cases consume with
    | success => exact absurd rfl hcons
    | conditionFailed =>
      simp [AwsConfirmApproval.validateAndConsume, hT, hS, htok, hsg, hsome, hu,
        not_le.mpr hlt, h1, h2, hsgn]
    | storeError =>
      simp [AwsConfirmApproval.validateAndConsume, hT, hS, htok, hsg, hsome, hu,
        not_le.mpr hlt, h1, h2, hsgn]
  · intro item hT hS htok hsg hsome hu hlt h1 h2 hsig hcons
    have hsgn : ¬ p.sig ≠ AwsConfirmApproval._sig hmacF secret
        p.instance_id p.finding_id p.token := by simp [hsig]
    subst hcons
    rw [hv]
    simp [AwsConfirmApproval.validateAndConsume, hT, hS, htok, hsg, hsome, hu,
      not_le.mpr hlt, h1, h2, hsgn]

/-- Witness for C1: a concrete confirmed request whose token has no
record, rejected by check 3 as `REJECTED_NOT_FOUND`. -/
theorem C1_confirmed_checks_run_in_order_witness :
    AwsConfirmApproval.handleConfirm ⟨"fn", "tbl", "prm"⟩
      { instance_id := "i-1", finding_id := "f-1", finding_title := "",
        token := "tok", sig := "s1", confirm := "1" }
      (fun _ => none) 0 "sec" (fun s m => s ++ "#" ++ m) .success true
      = .tokenNotFound :=
  (C1_confirmed_checks_run_in_order ⟨"fn", "tbl", "prm"⟩
    { instance_id := "i-1", finding_id := "f-1", finding_title := "",
      token := "tok", sig := "s1", confirm := "1" }
    (fun _ => none) 0 "sec" (fun s m => s ++ "#" ++ m) .success true
    (by decide) (by decide) (by decide) (Or.inl rfl)).2.2.1 (by decide) (by decide) (by decide) (by decide) rfl

/-- Counterexample to C2 as stated: a record that is expired
(`expires_at = 100 ≤ now = 200`) and already used is rejected with the
"already used" page (`REJECTED_REPLAYED`), not `REJECTED_EXPIRED` — the
`used` check at line 130 precedes the expiry check at line 132. -/
theorem C2_counterexample :
    (100 : Int) ≤ 200
    ∧ AwsConfirmApproval.handleConfirm ⟨"fn", "tbl", "prm"⟩
        { instance_id := "i-1", finding_id := "f-1", finding_title := "",
          token := "tok", sig := "s1", confirm := "1" }
        (fun t => if t = "tok" then
          some ⟨"tok", "i-1", "f-1", "", 0, 100, true⟩ else none)
        200 "sec" (fun s m => s ++ "#" ++ m) .success true = .alreadyUsed
    ∧ AwsConfirmApproval.handleConfirm ⟨"fn", "tbl", "prm"⟩
        { instance_id := "i-1", finding_id := "f-1", finding_title := "",
          token := "tok", sig := "s1", confirm := "1" }
        (fun t => if t = "tok" then
          some ⟨"tok", "i-1", "f-1", "", 0, 100, true⟩ else none)
        200 "sec" (fun s m => s ++ "#" ++ m) .success true
      ≠ .expired := by
  refine ⟨by decide, by decide, by decide⟩

/-- C2 amended: in the `CONFIRMED` flow, a found record invoked at or
after `expires_at` is rejected `REJECTED_EXPIRED` provided `used` is
still false; when `used` is already true, the `used` check fires first
and the outcome is `REJECTED_REPLAYED` instead. -/
theorem C2_expired_rejected_unless_replayed (cfg : AwsConfirmApproval.GateConfig)
    (p : AwsConfirmApproval.Params) (store : String → Option TokenRecord)
    (now : Int) (secret : String) (hmacF : String → String → String)
    (consume : AwsConfirmApproval.ConsumeOutcome) (invokeOk : Bool)
    (item : TokenRecord)
    (hpi : p.instance_id ≠ "") (hpf : p.finding_id ≠ "")
    (hfn : cfg.RESTORE_FN ≠ "")
    (hc : p.confirm = "1" ∨ p.confirm = "yes" ∨ p.confirm = "true")
    (hT : cfg.TOKENS_TABLE ≠ "") (hS : cfg.APPROVAL_SECRET_PARAM ≠ "")
    (htok : p.token ≠ "") (hsg : p.sig ≠ "")
    (hstore : store p.token = some item)
    (hle : item.expires_at ≤ now) :
    (item.used = false →
      AwsConfirmApproval.handleConfirm cfg p store now secret hmacF consume invokeOk
        = .expired)
    ∧ (item.used = true →
      AwsConfirmApproval.handleConfirm cfg p store now secret hmacF consume invokeOk
        = .alreadyUsed) := by
  have hv := handleConfirm_eq_validate_of_confirmed cfg p store now secret hmacF
    consume invokeOk hpi hpf hfn hc
  constructor
  · intro hu
    rw [hv]
    simp [AwsConfirmApproval.validateAndConsume, hT, hS, htok, hsg, hstore, hu, hle]
  · intro hu
    rw [hv]
    simp [AwsConfirmApproval.validateAndConsume, hT, hS, htok, hsg, hstore, hu]

/-- Witness for the amended C2: a concrete expired, unused token is
rejected `REJECTED_EXPIRED`. -/
theorem C2_expired_rejected_unless_replayed_witness :
    AwsConfirmApproval.handleConfirm ⟨"fn", "tbl", "prm"⟩
      { instance_id := "i-1", finding_id := "f-1", finding_title := "",
        token := "tok", sig := "s1", confirm := "1" }
      (fun t => if t = "tok" then
        some ⟨"tok", "i-1", "f-1", "", 0, 100, false⟩ else none)
      200 "sec" (fun s m => s ++ "#" ++ m) .success true = .expired :=
  (C2_expired_rejected_unless_replayed ⟨"fn", "tbl", "prm"⟩
    { instance_id := "i-1", finding_id := "f-1", finding_title := "",
      token := "tok", sig := "s1", confirm := "1" }
    (fun t => if t = "tok" then
      some ⟨"tok", "i-1", "f-1", "", 0, 100, false⟩ else none)
    200 "sec" (fun s m => s ++ "#" ++ m) .success true
    ⟨"tok", "i-1", "f-1", "", 0, 100, false⟩
    (by decide) (by decide) (by decide) (Or.inl rfl)
    (by decide) (by decide) (by decide) (by decide) rfl (by decide)).1 rfl

/-- Counterexample to C9 as stated: `confirm=On` is a truthy (non-empty)
parameter value, yet the gate renders the confirmation page rather than
entering the validation flow — the code accepts only `1`, `yes`, `true`
(case-insensitively) at line 97. -/
theorem C9_counterexample :
    ("On" ≠ "")
    ∧ AwsConfirmApproval.lambda_handler ⟨"fn", "tbl", "prm"⟩ "/"
        [("instanceId", "i-1"), ("findingId", "f-1"), ("token", "tok"),
         ("sig", "s1"), ("confirm", "On")]
        (fun _ => none) 0 "sec" (fun s m => s ++ "#" ++ m) .success true
      = .confirmationPage "i-1" "f-1" "" "tok" "s1" := by
  refine ⟨by decide, by decide⟩

/-- C9 amended: with parameters present and the restore function
configured, a `confirm` value whose lowering is one of `1`, `yes`,
`true` enters the validation flow, and any other value — including the
empty string produced by an absent or falsy parameter — renders the
confirmation page re-emitting the original parameters. -/
theorem C9_confirm_flag_dispatch (cfg : AwsConfirmApproval.GateConfig)
    (p : AwsConfirmApproval.Params) (store : String → Option TokenRecord)
    (now : Int) (secret : String) (hmacF : String → String → String)
    (consume : AwsConfirmApproval.ConsumeOutcome) (invokeOk : Bool)
    (qs : List (String × String))
    (hpi : p.instance_id ≠ "") (hpf : p.finding_id ≠ "")
    (hfn : cfg.RESTORE_FN ≠ "") :
    (¬ (p.confirm = "1" ∨ p.confirm = "yes" ∨ p.confirm = "true") →
      AwsConfirmApproval.handleConfirm cfg p store now secret hmacF consume invokeOk
        = .confirmationPage p.instance_id p.finding_id p.finding_title p.token p.sig)
    ∧ ((p.confirm = "1" ∨ p.confirm = "yes" ∨ p.confirm = "true") →
      AwsConfirmApproval.handleConfirm cfg p store now secret hmacF consume invokeOk
        = AwsConfirmApproval.validateAndConsume cfg p store now secret hmacF
            consume invokeOk)
    ∧ (qsGet qs "confirm" = none → (AwsConfirmApproval.extractParams qs).confirm = "") := by
  refine ⟨?_, ?_, ?_⟩
  · intro h
    simp [AwsConfirmApproval.handleConfirm, hpi, hpf, hfn, h]
  · intro h
    exact handleConfirm_eq_validate_of_confirmed cfg p store now secret hmacF
      consume invokeOk hpi hpf hfn h
  · intro h
    simp [AwsConfirmApproval.extractParams, pyOrOpt, h, pyLower]

/-- Witness for the amended C9: the confirmation page for `confirm=on`
(post-lowering), and the validation flow for `confirm=1`. -/
theorem C9_confirm_flag_dispatch_witness :
    AwsConfirmApproval.handleConfirm ⟨"fn", "tbl", "prm"⟩
      { instance_id := "i-1", finding_id := "f-1", finding_title := "",
        token := "tok", sig := "s1", confirm := "on" }
      (fun _ => none) 0 "sec" (fun s m => s ++ "#" ++ m) .success true
      = .confirmationPage "i-1" "f-1" "" "tok" "s1" :=
  (C9_confirm_flag_dispatch ⟨"fn", "tbl", "prm"⟩
    { instance_id := "i-1", finding_id := "f-1", finding_title := "",
      token := "tok", sig := "s1", confirm := "on" }
    (fun _ => none) 0 "sec" (fun s m => s ++ "#" ++ m) .success true []
    (by decide) (by decide) (by decide)).1 (by decide)

/-- Counterexample to C3 as stated: for a concrete otherwise-valid link
(the unaltered submission authorizes), altering exactly the `token`
parameter to a value with no record yields `REJECTED_NOT_FOUND`
("Token not found"), which is neither `REJECTED_MISMATCH` nor
`REJECTED_BAD_SIGNATURE`. -/
theorem C3_counterexample :
    AwsConfirmApproval.handleConfirm ⟨"fn", "tbl", "prm"⟩
      { instance_id := "i-1", finding_id := "f-1", finding_title := "",
        token := "tok", sig := "sec#i-1|f-1|tok", confirm := "1" }
      (fun t => if t = "tok" then
        some ⟨"tok", "i-1", "f-1", "", 0, 100, false⟩ else none)
      10 "sec" (fun s m => s ++ "#" ++ m) .success true
      = .restoreRequested
          { instanceId := "i-1", InstanceIds := ["i-1"],
            findingId := "f-1", source := "email-approval-SIGNED" }
    ∧ AwsConfirmApproval.handleConfirm ⟨"fn", "tbl", "prm"⟩
        { instance_id := "i-1", finding_id := "f-1", finding_title := "",
          token := "tok2", sig := "sec#i-1|f-1|tok", confirm := "1" }
        (fun t => if t = "tok" then
          some ⟨"tok", "i-1", "f-1", "", 0, 100, false⟩ else none)
        10 "sec" (fun s m => s ++ "#" ++ m) .success true
      = .tokenNotFound
    ∧ (AwsConfirmApproval.GateResult.tokenNotFound ≠ .mismatch)
    ∧ (AwsConfirmApproval.GateResult.tokenNotFound ≠ .badSignature) := by
  refine ⟨by decide, by decide, by decide, by decide⟩

/-- C3 amended: for an otherwise-valid link, altering exactly one
parameter never authorizes: a different non-empty `instanceId` or
`findingId` yields `REJECTED_MISMATCH`; a different non-empty `token`
with no record yields `REJECTED_NOT_FOUND`, and in general (assuming the
recomputed HMAC over the altered token differs from the supplied
signature, i.e. no HMAC collision) yields one of `REJECTED_NOT_FOUND`,
`REJECTED_REPLAYED`, `REJECTED_EXPIRED`, `REJECTED_MISMATCH`,
`REJECTED_BAD_SIGNATURE` — never the success page. -/
theorem C3_altered_link_never_authorized (cfg : AwsConfirmApproval.GateConfig)
    (p : AwsConfirmApproval.Params) (store : String → Option TokenRecord)
    (now : Int) (secret : String) (hmacF : String → String → String)
    (consume : AwsConfirmApproval.ConsumeOutcome) (invokeOk : Bool)
    (item : TokenRecord)
    (hpi : p.instance_id ≠ "") (hpf : p.finding_id ≠ "")
    (hfn : cfg.RESTORE_FN ≠ "")
    (hc : p.confirm = "1" ∨ p.confirm = "yes" ∨ p.confirm = "true")
    (hT : cfg.TOKENS_TABLE ≠ "") (hS : cfg.APPROVAL_SECRET_PARAM ≠ "")
    (htok : p.token ≠ "") (hsg : p.sig ≠ "")
    (hstore : store p.token = some item)
    (hiid : item.instanceId = p.instance_id) (hfid : item.findingId = p.finding_id)
    (hused : item.used = false) (hlt : now < item.expires_at)
    (hsig : p.sig = AwsConfirmApproval._sig hmacF secret
        p.instance_id p.finding_id p.token) :
    (∀ iid2 : String, iid2 ≠ p.instance_id → iid2 ≠ "" →
      AwsConfirmApproval.handleConfirm cfg { p with instance_id := iid2 }
        store now secret hmacF consume invokeOk = .mismatch)
    ∧ (∀ fid2 : String, fid2 ≠ p.finding_id → fid2 ≠ "" →
      AwsConfirmApproval.handleConfirm cfg { p with finding_id := fid2 }
        store now secret hmacF consume invokeOk = .mismatch)
    ∧ (∀ tok2 : String, tok2 ≠ p.token → tok2 ≠ "" → store tok2 = none →
      AwsConfirmApproval.handleConfirm cfg { p with token := tok2 }
        store now secret hmacF consume invokeOk = .tokenNotFound)
    ∧ (∀ tok2 : String, tok2 ≠ p.token → tok2 ≠ "" →
      hmacF secret (p.instance_id ++ "|" ++ p.finding_id ++ "|" ++ tok2)
        ≠ hmacF secret (p.instance_id ++ "|" ++ p.finding_id ++ "|" ++ p.token) →
      (AwsConfirmApproval.handleConfirm cfg { p with token := tok2 }
          store now secret hmacF consume invokeOk = .tokenNotFound
      ∨ AwsConfirmApproval.handleConfirm cfg { p with token := tok2 }
          store now secret hmacF consume invokeOk = .alreadyUsed
      ∨ AwsConfirmApproval.handleConfirm cfg { p with token := tok2 }
          store now secret hmacF consume invokeOk = .expired
      ∨ AwsConfirmApproval.handleConfirm cfg { p with token := tok2 }
          store now secret hmacF consume invokeOk = .mismatch
      ∨ AwsConfirmApproval.handleConfirm cfg { p with token := tok2 }
          store now secret hmacF consume invokeOk = .badSignature)) := by
  refine ⟨?_, ?_, ?_, ?_⟩
  · intro iid2 hne hne2
    have hv := handleConfirm_eq_validate_of_confirmed cfg { p with instance_id := iid2 }
      store now secret hmacF consume invokeOk hne2 hpf hfn hc
    rw [hv]
    have hm : item.instanceId ≠ iid2 := by rw [hiid]; exact fun h => hne h.symm
    simp [AwsConfirmApproval.validateAndConsume, hT, hS, htok, hsg, hstore, hused,
      not_le.mpr hlt, hm]
  · intro fid2 hne hne2
    have hv := handleConfirm_eq_validate_of_confirmed cfg { p with finding_id := fid2 }
      store now secret hmacF consume invokeOk hpi hne2 hfn hc
    rw [hv]
    have hm : item.findingId ≠ fid2 := by rw [hfid]; exact fun h => hne h.symm
    simp [AwsConfirmApproval.validateAndConsume, hT, hS, htok, hsg, hstore, hused,
      not_le.mpr hlt, hm]
  · intro tok2 hne hne2 hnone
    have hv := handleConfirm_eq_validate_of_confirmed cfg { p with token := tok2 }
      store now secret hmacF consume invokeOk hpi hpf hfn hc
    rw [hv]
    simp [AwsConfirmApproval.validateAndConsume, hT, hS, hne2, hsg, hnone]
  · intro tok2 hne hne2 hnc
    have hv := handleConfirm_eq_validate_of_confirmed cfg { p with token := tok2 }
      store now secret hmacF consume invokeOk hpi hpf hfn hc
    rw [hv]
    rcases hstore2 : store tok2 with _ | item2
    · exact Or.inl (by simp [AwsConfirmApproval.validateAndConsume, hT, hS, hne2,
        hsg, hstore2])
    · rcases hu2 : item2.used with _ | _
      · by_cases hle2 : item2.expires_at ≤ now
        · refine Or.inr (Or.inr (Or.inl ?_))
          simp [AwsConfirmApproval.validateAndConsume, hT, hS, hne2, hsg, hstore2,
            hu2, hle2]
        · by_cases hm2 : item2.instanceId ≠ p.instance_id ∨ item2.findingId ≠ p.finding_id
          · refine Or.inr (Or.inr (Or.inr (Or.inl ?_)))
            simp [AwsConfirmApproval.validateAndConsume, hT, hS, hne2, hsg, hstore2,
              hu2, hle2, hm2]
          · refine Or.inr (Or.inr (Or.inr (Or.inr ?_)))
            have hbad : p.sig ≠ AwsConfirmApproval._sig hmacF secret
                p.instance_id p.finding_id tok2 := by
              rw [hsig]
              simp only [AwsConfirmApproval._sig]
              exact fun h => hnc h.symm
            simp [AwsConfirmApproval.validateAndConsume, hT, hS, hne2, hsg, hstore2,
              hu2, hle2, hm2, hbad]
      · refine Or.inr (Or.inl ?_)
        simp [AwsConfirmApproval.validateAndConsume, hT, hS, hne2, hsg, hstore2, hu2]

/-- Witness for the amended C3: submitting `instanceId=i-2` with the
original token and signature of a link issued for `(i-1, f-1)` yields
`REJECTED_MISMATCH`. -/
theorem C3_altered_link_never_authorized_witness :
    AwsConfirmApproval.handleConfirm ⟨"fn", "tbl", "prm"⟩
      { instance_id := "i-2", finding_id := "f-1", finding_title := "",
        token := "tok", sig := "sec#i-1|f-1|tok", confirm := "1" }
      (fun t => if t = "tok" then
        some ⟨"tok", "i-1", "f-1", "", 0, 100, false⟩ else none)
      10 "sec" (fun s m => s ++ "#" ++ m) .success true = .mismatch :=
  (C3_altered_link_never_authorized ⟨"fn", "tbl", "prm"⟩
    { instance_id := "i-1", finding_id := "f-1", finding_title := "",
      token := "tok", sig := "sec#i-1|f-1|tok", confirm := "1" }
    (fun t => if t = "tok" then
      some ⟨"tok", "i-1", "f-1", "", 0, 100, false⟩ else none)
    10 "sec" (fun s m => s ++ "#" ++ m) .success true
    ⟨"tok", "i-1", "f-1", "", 0, 100, false⟩
    (by decide) (by decide) (by decide) (Or.inl rfl)
    (by decide) (by decide) (by decide) (by decide) rfl rfl rfl rfl (by decide)
    (by decide)).1 "i-2" (by decide) (by decide)

/-! ## Helper lemmas for the EC2 world model -/

/-- Looking an instance up by identifier returns an instance bearing it. -/
theorem describeInstance_id (st : Ec2State) (iid : String) (ins : Ec2Instance)
    (h : describeInstance st iid = some ins) : ins.id = iid := by
  have := List.find?_some h
  simpa using this

/-- Instance lookup commutes with mapping an id-preserving function over
the fleet. -/
theorem describeInstance_map (st : Ec2State) (iid : String)
    (f : Ec2Instance → Ec2Instance) (hf : ∀ i, (f i).id = i.id)
    (ins : Ec2Instance) (h : describeInstance st iid = some ins) :
    describeInstance (st.map f) iid = some (f ins) := by
  unfold describeInstance at *
  rw [List.find?_map]
  have hp : ((fun i : Ec2Instance => decide (i.id = iid)) ∘ f)
      = (fun i : Ec2Instance => decide (i.id = iid)) := by
    funext i
    simp [hf i]
  rw [hp, h]
  rfl

/-- Instance lookup after a targeted per-instance update. -/
theorem describeInstance_onInstance (st : Ec2State) (iid : String)
    (f : Ec2Instance → Ec2Instance) (hf : ∀ i, (f i).id = i.id)
    (ins : Ec2Instance) (h : describeInstance st iid = some ins) :
    describeInstance (onInstance st iid f) iid = some (f ins) := by
  have hid := describeInstance_id st iid ins h
  have hf2 : ∀ i : Ec2Instance, (if i.id = iid then f i else i).id = i.id := by
    intro i
    by_cases hi : i.id = iid <;> simp [hi, hf]
  have hm := describeInstance_map st iid (fun i => if i.id = iid then f i else i)
    hf2 ins h
  simpa [onInstance, hid] using hm

/-- A freshly-upserted tag key reads back its value. -/
theorem getTag_setTag_same (ts : List (String × String)) (k v : String) :
    getTag (setTag ts k v) k = some v := by
  unfold getTag setTag
  rw [List.find?_cons_of_pos _ (by simp)]
  rfl

/-- `find?` for one key ignores the removal of a different key. -/
theorem find?_key_filter_ne (ts : List (String × String)) (k k' : String)
    (h : k' ≠ k) :
    (ts.filter (fun t => ¬ t.1 = k)).find? (fun t => t.1 = k')
      = ts.find? (fun t => t.1 = k') := by
  induction ts with
  | nil => rfl
  | cons a rest ih =>
    by_cases ha : a.1 = k
    · have hpa : ¬ a.1 = k' := fun hh => h (by rw [← hh, ha])
      rw [List.filter_cons_of_neg (by simp [ha]), ih,
        List.find?_cons_of_neg _ (by simp [hpa])]
    · by_cases hpa : a.1 = k'
      · rw [List.filter_cons_of_pos (by simp [ha]),
          List.find?_cons_of_pos _ (by simp [hpa]),
          List.find?_cons_of_pos _ (by simp [hpa])]
      · rw [List.filter_cons_of_pos (by simp [ha]),
          List.find?_cons_of_neg _ (by simp [hpa]),
          List.find?_cons_of_neg _ (by simp [hpa]), ih]

/-- Upserting one tag key leaves the reads of other keys unchanged. -/
theorem getTag_setTag_other (ts : List (String × String)) (k v k' : String)
    (h : k' ≠ k) :
    getTag (setTag ts k v) k' = getTag ts k' := by
  unfold getTag setTag
  rw [List.find?_cons_of_neg _ (by simp [h.symm]),
    find?_key_filter_ne ts k k' h]

/-- No entry for a key survives that key's removal. -/
theorem find?_filter_self_none (ts : List (String × String)) (k : String) :
    (ts.filter (fun t => ¬ t.1 = k)).find? (fun t => t.1 = k) = none := by
  induction ts with
  | nil => rfl
  | cons a rest ih =>
    by_cases ha : a.1 = k <;> simp [List.filter_cons, ha, ih]

/-- A deleted tag key reads back as absent. -/
theorem getTag_delTag_same (ts : List (String × String)) (k : String) :
    getTag (delTag ts k) k = none := by
  unfold getTag delTag
  rw [find?_filter_self_none]
  rfl

/-- Deleting one tag key leaves the reads of other keys unchanged. -/
theorem getTag_delTag_other (ts : List (String × String)) (k k' : String)
    (h : k' ≠ k) :
    getTag (delTag ts k) k' = getTag ts k' := by
  unfold getTag delTag
  rw [find?_key_filter_ne ts k k' h]

/-- The quarantine loop's per-instance effect keeps the identifier. -/
theorem quarantineLoopI_id (b k v : String) (l : List Eni) :
    ∀ i : Ec2Instance, (quarantineLoopI b k v i l).id = i.id := by
  induction l with
  | nil => intro i; rfl
  | cons e rest ih =>
    intro i
    simp only [quarantineLoopI]
    exact ih _

/-- After the quarantine loop over a non-empty interface snapshot, the
instance's `OriginalSGs` tag is the comma-join of the last interface's
pre-quarantine groups and the status tag holds the quarantined value. -/
theorem quarantineLoopI_tags (b k v : String) (hk : k ≠ "OriginalSGs")
    (l : List Eni) :
    ∀ i : Ec2Instance, l ≠ [] →
    getTag (quarantineLoopI b k v i l).tags "OriginalSGs"
        = some (pyJoinComma (lastEniGroups l))
    ∧ getTag (quarantineLoopI b k v i l).tags k = some v := by
  induction l with
  | nil => intro i h; exact absurd rfl h
  | cons e rest ih =>
    intro i _
    cases rest with
    | nil =>
      refine ⟨?_, ?_⟩
      · simp only [quarantineLoopI, lastEniGroups]
        show getTag (setTag (setTag i.tags "OriginalSGs" (pyJoinComma e.groups)) k v)
            "OriginalSGs" = some (pyJoinComma e.groups)
        rw [getTag_setTag_other _ _ _ _ (Ne.symm hk), getTag_setTag_same]
      · simp only [quarantineLoopI]
        show getTag (setTag (setTag i.tags "OriginalSGs" (pyJoinComma e.groups)) k v)
            k = some v
        rw [getTag_setTag_same]
    | cons e2 rest2 =>
      have h2 := ih (setEniGroupsI (createTagsI i
        [("OriginalSGs", pyJoinComma e.groups), (k, v)]) e.id [b]) (by simp)
      simpa only [quarantineLoopI, lastEniGroups] using h2

/-- Instance lookup through the state-level quarantine loop: the
quarantined instance evolves by `quarantineLoopI`. -/
theorem describe_quarantineLoop (b k v iid : String) (l : List Eni) :
    ∀ (st : Ec2State) (ins : Ec2Instance),
    describeInstance st iid = some ins →
    describeInstance (AwsIncidentResponder.quarantineLoop b k v iid st l) iid
      = some (quarantineLoopI b k v ins l) := by
  induction l with
  | nil =>
    intro st ins h
    simpa only [AwsIncidentResponder.quarantineLoop, quarantineLoopI] using h
  | cons e rest ih =>
    intro st ins h
    have h1 : describeInstance
        (create_tags st iid [("OriginalSGs", pyJoinComma e.groups), (k, v)]) iid
        = some (createTagsI ins [("OriginalSGs", pyJoinComma e.groups), (k, v)]) :=
      describeInstance_onInstance st iid
        (fun i => createTagsI i [("OriginalSGs", pyJoinComma e.groups), (k, v)])
        (fun i => rfl) ins h
    have h2 : describeInstance
        (modify_network_interface_attribute
          (create_tags st iid [("OriginalSGs", pyJoinComma e.groups), (k, v)])
          e.id [b]) iid
        = some (setEniGroupsI
            (createTagsI ins [("OriginalSGs", pyJoinComma e.groups), (k, v)])
            e.id [b]) :=
      describeInstance_map _ iid (fun i => setEniGroupsI i e.id [b])
        (fun i => rfl) _ h1
    simp only [AwsIncidentResponder.quarantineLoop, quarantineLoopI]
    exact ih _ _ h2

/-- Instance lookup through the restore loop's per-interface modify fold. -/
theorem describe_modifyFold (iid : String) (gs : List String) (l : List Eni) :
    ∀ (st : Ec2State) (ins : Ec2Instance),
    describeInstance st iid = some ins →
    describeInstance
      (l.foldl (fun s eni => modify_network_interface_attribute s eni.id gs) st) iid
      = some (l.foldl (fun i eni => setEniGroupsI i eni.id gs) ins) := by
  induction l with
  | nil => intro st ins h; simpa using h
  | cons e rest ih =>
    intro st ins h
    simp only [List.foldl_cons]
    exact ih _ _
      (describeInstance_map st iid (fun i => setEniGroupsI i e.id gs)
        (fun i => rfl) ins h)

/-- The per-interface modify fold leaves the instance's tags intact. -/
theorem foldl_setEniGroupsI_tags (gs : List String) (l : List Eni) :
    ∀ i : Ec2Instance,
    (l.foldl (fun i eni => setEniGroupsI i eni.id gs) i).tags = i.tags := by
  induction l with
  | nil => intro i; rfl
  | cons e rest ih =>
    intro i
    simp only [List.foldl_cons]
    exact ih _

/-- After folding the per-interface group replacement over a covering
list of interfaces, every interface of the instance carries `gs`. -/
theorem foldl_setEniGroupsI_groups (gs : List String) (l : List Eni) :
    ∀ i : Ec2Instance,
    (∀ e ∈ i.enis, e.id ∈ l.map Eni.id ∨ e.groups = gs) →
    ∀ e ∈ (l.foldl (fun i eni => setEniGroupsI i eni.id gs) i).enis,
      e.groups = gs := by
  induction l with
  | nil =>
    intro i h e he
    rcases h e he with h1 | h1
    · simp at h1
    · exact h1
  | cons a rest ih =>
    intro i h e he
    simp only [List.foldl_cons] at he
    refine ih (setEniGroupsI i a.id gs) ?_ e he
    intro e2 he2
    simp only [setEniGroupsI] at he2
    rcases List.mem_map.mp he2 with ⟨e0, he0, rfl⟩
    by_cases hid : e0.id = a.id
    · right
      simp [hid]
    · rcases h e0 he0 with h1 | h1
      · simp only [List.map_cons, List.mem_cons] at h1
        rcases h1 with h2 | h2
        · exact absurd h2 hid
        · left
          simpa [hid] using h2
      · right
        simpa [hid] using h1

/-- Splitting a comma-free piece yields a single piece. -/
theorem splitCharAux_no_comma : ∀ (piece acc : List Char), ',' ∉ piece →
    splitCharAux ',' piece acc = [acc.reverse ++ piece] := by
  intro piece
  induction piece with
  | nil =>
    intro acc h
    simp [splitCharAux]
  | cons x xs ih =>
    intro acc h
    have hx : ¬ x = ',' := fun hh => h (List.mem_cons.mpr (Or.inl hh.symm))
    have hrest : ',' ∉ xs := fun hh => h (List.mem_cons_of_mem x hh)
    simp only [splitCharAux, if_neg hx]
    rw [ih (x :: acc) hrest]
    simp

/-- Splitting a comma-free piece followed by a comma emits the piece and
continues. -/
theorem splitCharAux_piece_comma : ∀ (piece rest acc : List Char), ',' ∉ piece →
    splitCharAux ',' (piece ++ ',' :: rest) acc
      = (acc.reverse ++ piece) :: splitCharAux ',' rest [] := by
  intro piece
  induction piece with
  | nil =>
    intro rest acc h
    simp [splitCharAux]
  | cons x xs ih =>
    intro rest acc h
    have hx : ¬ x = ',' := fun hh => h (List.mem_cons.mpr (Or.inl hh.symm))
    have hrest : ',' ∉ xs := fun hh => h (List.mem_cons_of_mem x hh)
    have step : splitCharAux ',' ((x :: xs) ++ ',' :: rest) acc
        = splitCharAux ',' (xs ++ ',' :: rest) (x :: acc) := by
      simp [splitCharAux, if_neg hx]
    rw [step, ih rest (x :: acc) hrest]
    simp

/-- Splitting the comma-join of non-empty, comma-free pieces recovers
exactly the pieces. -/
theorem splitCharAux_join : ∀ ds : List (List Char), ds ≠ [] →
    (∀ d ∈ ds, ',' ∉ d) →
    splitCharAux ',' (joinCharPieces ds) [] = ds := by
  intro ds
  induction ds with
  | nil => intro h _; exact absurd rfl h
  | cons d ds2 ih =>
    intro _ hall
    cases ds2 with
    | nil =>
      rw [show joinCharPieces [d] = d from rfl,
        splitCharAux_no_comma d [] (hall d (List.mem_cons_self d []))]
      simp
    | cons d2 ds3 =>
      rw [show joinCharPieces (d :: d2 :: ds3)
            = d ++ ',' :: joinCharPieces (d2 :: ds3) from rfl,
        splitCharAux_piece_comma d _ [] (hall d (List.mem_cons_self d _)),
        ih (by simp) (fun x hx => hall x (List.mem_cons_of_mem d hx))]
      simp

/-- Python `split(",")` inverts Python `",".join` on a non-empty list of
comma-free group identifiers. -/
theorem pySplit_pyJoin (l : List String) (hne : l ≠ [])
    (hcf : ∀ g ∈ l, ',' ∉ g.data) :
    pySplitComma (pyJoinComma l) = l := by
  unfold pySplitComma pyJoinComma
  rw [show (String.mk (joinCharPieces (l.map String.data))).data
      = joinCharPieces (l.map String.data) from rfl]
  rw [splitCharAux_join (l.map String.data) (by simpa using hne)
    (by intro d hd
        rcases List.mem_map.mp hd with ⟨g, hg, rfl⟩
        exact hcf g hg)]
  rw [List.map_map]
  have hcomp : (String.mk ∘ String.data) = id := funext fun s => rfl
  rw [hcomp, List.map_id]

/-! ## Claims about Quarantine and Restore -/

/-- C6: `Restore` on an instance with no `OriginalSGs` tag records it as
skipped, raising no exception: the loop continues with the remaining
batch, and the whole EC2 state — the instance's tags and its
network-interface group membership included — is left unmodified, with
the instance reported under `skipped_no_original_sgs`. -/
theorem C6_restore_untagged_skips (tagKey restoredValue : String) (st : Ec2State)
    (iid : String) (ins : Ec2Instance) (restored skipped rest : List String)
    (hfind : describeInstance st iid = some ins)
    (htag : getTag ins.tags "OriginalSGs" = none) :
    AwsRestoreFunction.restoreLoop tagKey restoredValue st restored skipped (iid :: rest)
      = AwsRestoreFunction.restoreLoop tagKey restoredValue st restored
          (skipped ++ [iid]) rest
    ∧ AwsRestoreFunction.lambda_handler tagKey restoredValue st
        { InstanceIds := some [iid], InstanceId := none, instanceId := none,
          source := none, findingId := none }
      = .ok (st, { restored := [], skipped_no_original_sgs := [iid],
                   source := none, findingId := none }) := by
  constructor
  · simp [AwsRestoreFunction.restoreLoop, hfind, htag]
  · simp [AwsRestoreFunction.lambda_handler, AwsRestoreFunction.eventInstanceIds,
      AwsRestoreFunction.pyTruthyOptList, AwsRestoreFunction.restoreLoop, hfind, htag]

/-- Witness for C6: a concrete never-quarantined instance is skipped and
the state returned unchanged. -/
theorem C6_restore_untagged_skips_witness :
    AwsRestoreFunction.lambda_handler "IncidentStatus" "Healthy"
      [⟨"i-1", [⟨"eni-1", ["sg-1"]⟩], []⟩]
      { InstanceIds := some ["i-1"], InstanceId := none, instanceId := none,
        source := none, findingId := none }
      = .ok ([⟨"i-1", [⟨"eni-1", ["sg-1"]⟩], []⟩],
        { restored := [], skipped_no_original_sgs := ["i-1"],
          source := none, findingId := none }) :=
  (C6_restore_untagged_skips "IncidentStatus" "Healthy"
    [⟨"i-1", [⟨"eni-1", ["sg-1"]⟩], []⟩] "i-1" ⟨"i-1", [⟨"eni-1", ["sg-1"]⟩], []⟩
    [] [] [] (by decide) rfl).2

/-- Counterexample to C4 as stated: in the batch
`["i-missing", "i-good"]`, the collaborator error raised while
processing `i-missing` aborts the whole handler with an error — even
though `i-good`, restorable on its own (second conjunct), was still
pending; one instance's failure does abort the others. -/
theorem C4_counterexample :
    AwsRestoreFunction.lambda_handler "IncidentStatus" "Healthy"
      [⟨"i-good", [⟨"eni-1", ["sg-old"]⟩], [("OriginalSGs", "sg-1")]⟩]
      { InstanceIds := some ["i-missing", "i-good"], InstanceId := none,
        instanceId := none, source := none, findingId := none }
      = .error (.describeFailed "i-missing")
    ∧ AwsRestoreFunction.lambda_handler "IncidentStatus" "Healthy"
      [⟨"i-good", [⟨"eni-1", ["sg-old"]⟩], [("OriginalSGs", "sg-1")]⟩]
      { InstanceIds := some ["i-good"], InstanceId := none,
        instanceId := none, source := none, findingId := none }
      = .ok ([⟨"i-good", [⟨"eni-1", ["sg-1"]⟩], [("IncidentStatus", "Healthy")]⟩],
        { restored := ["i-good"], skipped_no_original_sgs := [],
          source := none, findingId := none }) := by
  refine ⟨rfl, rfl⟩

/-- C4 amended: an instance lacking the `OriginalSGs` recovery state is
skipped without aborting the rest of the batch, but a raised
collaborator error (here: `describe_instances` failing) while processing
one instance propagates uncaught and aborts the processing of every
remaining instance in the batch. -/
theorem C4_collaborator_error_aborts_batch (tagKey restoredValue : String)
    (st : Ec2State) (restored skipped rest : List String) :
    (∀ iid : String, describeInstance st iid = none →
      AwsRestoreFunction.restoreLoop tagKey restoredValue st restored skipped
          (iid :: rest)
        = .error (.describeFailed iid))
    ∧ (∀ (iid : String) (ins : Ec2Instance), describeInstance st iid = some ins →
        getTag ins.tags "OriginalSGs" = none →
        AwsRestoreFunction.restoreLoop tagKey restoredValue st restored skipped
            (iid :: rest)
          = AwsRestoreFunction.restoreLoop tagKey restoredValue st restored
              (skipped ++ [iid]) rest) := by
  constructor
  · intro iid hmiss
    simp [AwsRestoreFunction.restoreLoop, hmiss]
  · intro iid ins hfind htag
    simp [AwsRestoreFunction.restoreLoop, hfind, htag]

/-- Witness for the amended C4: with an empty fleet, the first batch
entry errors out and the loop aborts. -/
theorem C4_collaborator_error_aborts_batch_witness :
    AwsRestoreFunction.restoreLoop "IncidentStatus" "Healthy" [] [] [] ["i-x", "i-y"]
      = .error (.describeFailed "i-x") :=
  (C4_collaborator_error_aborts_batch "IncidentStatus" "Healthy" [] [] [] ["i-y"]).1
    "i-x" rfl

/-- C5: `Quarantine(I)` followed by `Restore(I)`, both succeeding,
reapplies to every network interface of `I` exactly the security-group
set captured before quarantine — the `OriginalSGs` snapshot, which the
per-interface tagging loop leaves as the last interface's pre-quarantine
set, hence for single-interface (or uniform) instances exactly the
original set — removes the `OriginalSGs` tag, and sets the status tag to
the healthy value.  Hypotheses: the instance exists with at least one
interface, the status-tag key differs from `OriginalSGs`, and the
captured group identifiers are comma-free with a non-empty join. -/
theorem C5_quarantine_restore_round_trip
    (blocking tagKey qVal restoredValue : String) (st : Ec2State) (iid : String)
    (ins : Ec2Instance)
    (hfind : describeInstance st iid = some ins)
    (hne : ins.enis ≠ [])
    (hkey : tagKey ≠ "OriginalSGs")
    (hjne : pyJoinComma (capturedSGs ins) ≠ "")
    (hcf : ∀ g ∈ capturedSGs ins, ',' ∉ g.data) :
    ∃ (st1 st2 : Ec2State) (insF : Ec2Instance),
      AwsIncidentResponder.quarantine blocking tagKey qVal st iid = .ok st1
      ∧ AwsRestoreFunction.lambda_handler tagKey restoredValue st1
          { InstanceIds := some [iid], InstanceId := none, instanceId := none,
            source := none, findingId := none }
        = .ok (st2, { restored := [iid], skipped_no_original_sgs := [],
                      source := none, findingId := none })
      ∧ describeInstance st2 iid = some insF
      ∧ (∀ e ∈ insF.enis, e.groups = capturedSGs ins)
      ∧ getTag insF.tags "OriginalSGs" = none
      ∧ getTag insF.tags tagKey = some restoredValue := by
  simp only [capturedSGs] at hjne hcf
  have hcne : lastEniGroups ins.enis ≠ [] := by
    intro h
    exact hjne (by rw [h]; rfl)
  have hsplit : pySplitComma (pyJoinComma (lastEniGroups ins.enis))
      = lastEniGroups ins.enis := pySplit_pyJoin _ hcne hcf
  have hq : AwsIncidentResponder.quarantine blocking tagKey qVal st iid
      = .ok (AwsIncidentResponder.quarantineLoop blocking tagKey qVal iid st ins.enis) := by
    simp [AwsIncidentResponder.quarantine, hfind]
  have h1 : describeInstance
      (AwsIncidentResponder.quarantineLoop blocking tagKey qVal iid st ins.enis) iid
      = some (quarantineLoopI blocking tagKey qVal ins ins.enis) :=
    describe_quarantineLoop blocking tagKey qVal iid ins.enis st ins hfind
  have htags := quarantineLoopI_tags blocking tagKey qVal hkey ins.enis ins hne
  have hloop : AwsRestoreFunction.restoreLoop tagKey restoredValue
      (AwsIncidentResponder.quarantineLoop blocking tagKey qVal iid st ins.enis)
      [] [] [iid]
      = .ok (create_tags (delete_tags
          ((quarantineLoopI blocking tagKey qVal ins ins.enis).enis.foldl
            (fun s eni => modify_network_interface_attribute s eni.id
              (lastEniGroups ins.enis))
            (AwsIncidentResponder.quarantineLoop blocking tagKey qVal iid st ins.enis))
          iid "OriginalSGs") iid [(tagKey, restoredValue)],
        ([iid], [])) := by
    simp [AwsRestoreFunction.restoreLoop, h1, htags.1, hjne, hsplit]
  have h2 : describeInstance
      ((quarantineLoopI blocking tagKey qVal ins ins.enis).enis.foldl
        (fun s eni => modify_network_interface_attribute s eni.id
          (lastEniGroups ins.enis))
        (AwsIncidentResponder.quarantineLoop blocking tagKey qVal iid st ins.enis)) iid
      = some ((quarantineLoopI blocking tagKey qVal ins ins.enis).enis.foldl
          (fun i eni => setEniGroupsI i eni.id (lastEniGroups ins.enis))
          (quarantineLoopI blocking tagKey qVal ins ins.enis)) :=
    describe_modifyFold iid (lastEniGroups ins.enis) _ _ _ h1
  have h3 : describeInstance (delete_tags
      ((quarantineLoopI blocking tagKey qVal ins ins.enis).enis.foldl
        (fun s eni => modify_network_interface_attribute s eni.id
          (lastEniGroups ins.enis))
        (AwsIncidentResponder.quarantineLoop blocking tagKey qVal iid st ins.enis))
      iid "OriginalSGs") iid
      = some (deleteTagI
          ((quarantineLoopI blocking tagKey qVal ins ins.enis).enis.foldl
            (fun i eni => setEniGroupsI i eni.id (lastEniGroups ins.enis))
            (quarantineLoopI blocking tagKey qVal ins ins.enis)) "OriginalSGs") :=
    describeInstance_onInstance _ iid (fun i => deleteTagI i "OriginalSGs")
      (fun i => rfl) _ h2
  have h4 : describeInstance (create_tags (delete_tags
      ((quarantineLoopI blocking tagKey qVal ins ins.enis).enis.foldl
        (fun s eni => modify_network_interface_attribute s eni.id
          (lastEniGroups ins.enis))
        (AwsIncidentResponder.quarantineLoop blocking tagKey qVal iid st ins.enis))
      iid "OriginalSGs") iid [(tagKey, restoredValue)]) iid
      = some (createTagsI (deleteTagI
          ((quarantineLoopI blocking tagKey qVal ins ins.enis).enis.foldl
            (fun i eni => setEniGroupsI i eni.id (lastEniGroups ins.enis))
            (quarantineLoopI blocking tagKey qVal ins ins.enis)) "OriginalSGs")
          [(tagKey, restoredValue)]) :=
    describeInstance_onInstance _ iid (fun i => createTagsI i [(tagKey, restoredValue)])
      (fun i => rfl) _ h3
  refine ⟨AwsIncidentResponder.quarantineLoop blocking tagKey qVal iid st ins.enis,
    _, _, hq, ?_, h4, ?_, ?_, ?_⟩
  · simp [AwsRestoreFunction.lambda_handler, AwsRestoreFunction.eventInstanceIds,
      AwsRestoreFunction.pyTruthyOptList, hloop]
  · intro e he
    simp only [capturedSGs]
    have hcover : ∀ e2 ∈ (quarantineLoopI blocking tagKey qVal ins ins.enis).enis,
        e2.id ∈ (quarantineLoopI blocking tagKey qVal ins ins.enis).enis.map Eni.id
          ∨ e2.groups = lastEniGroups ins.enis := by
      intro e2 he2
      exact Or.inl (List.mem_map_of_mem _ he2)
    exact foldl_setEniGroupsI_groups (lastEniGroups ins.enis) _ _ hcover e he
  · show getTag (setTag (delTag _ "OriginalSGs") tagKey restoredValue) "OriginalSGs" = none
    rw [getTag_setTag_other _ _ _ _ (Ne.symm hkey), getTag_delTag_same]
  · show getTag (setTag (delTag _ "OriginalSGs") tagKey restoredValue) tagKey
      = some restoredValue
    rw [getTag_setTag_same]

/-- Witness for C5: a concrete single-interface instance with groups
`sg-a, sg-b` goes through quarantine and restore and ends with exactly
those groups, no `OriginalSGs` tag, and a healthy status tag. -/
theorem C5_quarantine_restore_round_trip_witness :
    ∃ (st1 st2 : Ec2State) (insF : Ec2Instance),
      AwsIncidentResponder.quarantine "sg-block" "IncidentStatus" "Quarantined"
        [⟨"i-1", [⟨"eni-1", ["sg-a", "sg-b"]⟩], []⟩] "i-1" = .ok st1
      ∧ AwsRestoreFunction.lambda_handler "IncidentStatus" "Healthy" st1
          { InstanceIds := some ["i-1"], InstanceId := none, instanceId := none,
            source := none, findingId := none }
        = .ok (st2, { restored := ["i-1"], skipped_no_original_sgs := [],
                      source := none, findingId := none })
      ∧ describeInstance st2 "i-1" = some insF
      ∧ (∀ e ∈ insF.enis,
          e.groups = capturedSGs ⟨"i-1", [⟨"eni-1", ["sg-a", "sg-b"]⟩], []⟩)
      ∧ getTag insF.tags "OriginalSGs" = none
      ∧ getTag insF.tags "IncidentStatus" = some "Healthy" :=
  C5_quarantine_restore_round_trip "sg-block" "IncidentStatus" "Quarantined" "Healthy"
    [⟨"i-1", [⟨"eni-1", ["sg-a", "sg-b"]⟩], []⟩] "i-1"
    ⟨"i-1", [⟨"eni-1", ["sg-a", "sg-b"]⟩], []⟩
    (by decide) (by decide) (by decide) (by decide) (by decide)
